import Mathlib

/-!
Verification of the Sankey dashboard core (`src/diagram.py`).

The embedding models the two core functions of the program:

* `plot_sankey_d3` — the flow aggregator and its user-facing outcomes
  (lines 207-245 of `diagram.py`);
* `detect_month_cols` — the column classifier (lines 161-179).

Pandas scalars are modelled by `Cell` (a text cell or a numeric cell);
numeric values are rationals.  A data-frame row is a function from column
label to cell, and a `Table` is a column-label list plus a row list.
`pd.to_numeric(errors = coerce).fillna(0)` is modelled per cell by
`coerceNum`: a numeric cell keeps its value, a text cell is parsed as a
plain decimal literal and becomes 0 when parsing fails.
-/

namespace Sankey

/-- A scalar cell of the data frame: text or numeric. -/
inductive Cell where
  | str (s : String)
  | num (q : ℚ)
deriving DecidableEq

/-- A data-frame row: the cell stored under each column label. -/
abbrev Row := String → Cell

/-- A data frame: column labels (already coerced to text, as the program
does on load and again with `astype(str)`) plus the rows. -/
structure Table where
  cols : List String
  rows : List Row

/-- Value of a digit string, most significant digit first. -/
def digitsToNat (l : List Char) : ℕ :=
  l.foldl (fun a c => a * 10 + (c.toNat - 48)) 0

/-- Decimal-literal parser modelling the numeric coercion done by
`pd.to_numeric(errors = coerce)` on text cells: an optional sign, a
nonempty integer part and an optional fraction part.  Any other text
fails coercion (becomes NaN in pandas). -/
def parseDecimal (s : String) : Option ℚ :=
  let core : List Char → Option ℚ := fun body =>
    match body.splitOn '.' with
    | [ip] =>
        if ip ≠ [] ∧ ip.all Char.isDigit then some (digitsToNat ip) else none
    | [ip, fp] =>
        if ip ≠ [] ∧ ip.all Char.isDigit ∧ fp.all Char.isDigit then
          some ((digitsToNat ip : ℚ) + (digitsToNat fp : ℚ) / (10 : ℚ) ^ fp.length)
        else none
    | _ => none
  match s.toList with
  | '-' :: rest => (core rest).map (fun q => -q)
  | '+' :: rest => core rest
  | l => core l

/-- `pd.to_numeric(cell, errors = coerce)` followed by `fillna(0)`:
a numeric cell keeps its value, a text cell parses as a decimal literal
or becomes 0. -/
def coerceNum : Cell → ℚ
  | Cell.num q => q
  | Cell.str s => (parseDecimal s).getD 0

/-- The in-place column assignment
`df[value_col] = pd.to_numeric(df[value_col], errors="coerce").fillna(0)`
applied to one row. -/
def coerceRow (value_col : String) (r : Row) : Row :=
  fun c => if c = value_col then Cell.num (coerceNum (r value_col)) else r c

/-- Python `round(x, 3)`, modelled as rounding to the nearest multiple of
1/1000 (ties rounded up; Python rounds ties to even, but exact
half-thousandth ties are immaterial here). -/
def round3 (q : ℚ) : ℚ := ((q * 1000 + 1 / 2).floor : ℚ) / 1000

/-- One dictionary accumulation `node_values[k] += v` (the dictionary is a
total function, zero outside its keys). -/
def dictAdd (m : Cell → ℚ) (k : Cell) (v : ℚ) : Cell → ℚ :=
  fun c => if c = k then m c + v else m c

/-- One iteration of the node-total loop: the row's value is added to the
totals of its source node and of its target node. -/
def node_values_step (source_col target_col value_col : String)
    (m : Cell → ℚ) (r : Row) : Cell → ℚ :=
  dictAdd (dictAdd m (r source_col) (coerceNum (r value_col)))
    (r target_col) (coerceNum (r value_col))

/-- The node-total loop of `plot_sankey_d3` (lines 228-231), run over the
surviving rows starting from the all-zero dictionary. -/
def node_values_of (source_col target_col value_col : String)
    (rows : List Row) : Cell → ℚ :=
  rows.foldl (node_values_step source_col target_col value_col) (fun _ => 0)

/-- A node of the emitted Diagram Dataset: name plus rounded total. -/
structure SNode where
  name : Cell
  value : ℚ
deriving DecidableEq

/-- A link of the emitted Diagram Dataset: node indices plus the
full-precision coerced value. -/
structure SLink where
  source : ℕ
  target : ℕ
  value : ℚ
deriving DecidableEq

/-- The Diagram Dataset handed to the browser-side renderer
(`sankey_data`, lines 242-245). -/
structure SankeyData where
  nodes : List SNode
  links : List SLink
deriving DecidableEq

/-- The observable outcome of a `plot_sankey_d3` call: the `st.error` early
return, an unhandled pandas `KeyError` escaping the function, the
`st.warning` early return, or a rendered Diagram Dataset. -/
inductive PlotResult where
  | errorMsg (msg : String)
  | raiseKeyError (col : String)
  | warnEmpty
  | rendered (data : SankeyData)
deriving DecidableEq

/-- The aggregation pipeline of `plot_sankey_d3` (lines 207-245), up to the
point where the Diagram Dataset is handed to the renderer.  Mirrors the
source order: the value-column existence check, the numeric coercion of the
value column, the positive-value filter, the accesses `df[source_col]` and
`df[target_col]` (which raise `KeyError` on a missing column), the
self-loop filter, the emptiness check, then node set, node totals and
links. -/
def plot_sankey_d3 (df : Table) (source_col target_col value_col : String) :
    PlotResult :=
  if value_col ∉ df.cols then
    PlotResult.errorMsg ("Value column " ++ value_col ++ " not found in data.")
  else
    let rows2 := (df.rows.map (coerceRow value_col)).filter
      (fun r => decide (0 < coerceNum (r value_col)))
    if source_col ∉ df.cols then PlotResult.raiseKeyError source_col
    else if target_col ∉ df.cols then PlotResult.raiseKeyError target_col
    else
      let rows3 := rows2.filter (fun r => decide (r source_col ≠ r target_col))
      if rows3.isEmpty then PlotResult.warnEmpty
      else
        let nodes := (rows3.map (fun r => r source_col) ++
          rows3.map (fun r => r target_col)).dedup
        let node_values := node_values_of source_col target_col value_col rows3
        let links := rows3.map (fun r =>
          { source := nodes.indexOf (r source_col)
            target := nodes.indexOf (r target_col)
            value := coerceNum (r value_col) : SLink })
        PlotResult.rendered
          { nodes := nodes.map (fun n => { name := n, value := round3 (node_values n) })
            links := links }

/-- A calendar date, as produced by date parsing of a column label. -/
structure Date where
  year : ℕ
  month : ℕ
  day : ℕ
deriving DecidableEq

/-- Days in a month of the Gregorian calendar. -/
def daysInMonth (y m : ℕ) : ℕ :=
  if m = 2 then
    if y % 4 = 0 ∧ (y % 100 ≠ 0 ∨ y % 400 = 0) then 29 else 28
  else if m = 4 ∨ m = 6 ∨ m = 9 ∨ m = 11 then 30
  else 31

/-- Component check and assembly for an ISO date label. -/
def parseYMD (ys ms ds : List Char) : Option Date :=
  if ys.length = 4 ∧ ys.all Char.isDigit ∧
      ms ≠ [] ∧ ms.length ≤ 2 ∧ ms.all Char.isDigit ∧
      ds ≠ [] ∧ ds.length ≤ 2 ∧ ds.all Char.isDigit then
    let y := digitsToNat ys
    let m := digitsToNat ms
    let d := digitsToNat ds
    if 1 ≤ m ∧ m ≤ 12 ∧ 1 ≤ d ∧ d ≤ daysInMonth y m then
      some { year := y, month := m, day := d }
    else none
  else none

/-- Date parsing of a column label, modelling `pd.to_datetime(col)` on the
ISO form YYYY-MM-DD; every other label is treated as raising (the
`except` branch of `detect_month_cols`). -/
def parseDate (s : String) : Option Date :=
  match s.toList.splitOn '-' with
  | [ys, ms, ds] => parseYMD ys ms ds
  | _ => none

/-- Three-letter month abbreviation of `strftime`. -/
def monthAbbr : ℕ → String
  | 1 => "Jan" | 2 => "Feb" | 3 => "Mar" | 4 => "Apr"
  | 5 => "May" | 6 => "Jun" | 7 => "Jul" | 8 => "Aug"
  | 9 => "Sep" | 10 => "Oct" | 11 => "Nov" | 12 => "Dec"
  | _ => ""

/-- Zero-padded two-digit rendering of `n % 100`. -/
def twoDigits (n : ℕ) : String :=
  (if n % 100 < 10 then "0" else "") ++ toString (n % 100)

/-- The display form `dt.strftime('%b-%y')`. -/
def fmtMonYY (d : Date) : String :=
  monthAbbr d.month ++ "-" ++ twoDigits d.year

/-- Python dictionary assignment `m[k] = v`: an existing key keeps its
position and gets the new value, a new key is appended. -/
def dictInsert : List (String × String) → String → String → List (String × String)
  | [], k, v => [(k, v)]
  | (k0, v0) :: rest, k, v =>
      if k0 = k then (k0, v) :: rest else (k0, v0) :: dictInsert rest k v

/-- One iteration of the `detect_month_cols` loop over one column label:
on successful date parsing record `display_to_real[strftime] = label`;
otherwise, when the upper-cased label starts with "FY", record
`display_to_real[label] = label`; otherwise leave the dictionary alone. -/
def detectStep (m : List (String × String)) (col : String) :
    List (String × String) :=
  match parseDate col with
  | some dt => dictInsert m (fmtMonYY dt) col
  | none =>
      if col.toUpper.startsWith "FY" then dictInsert m col col else m

/-- `detect_month_cols(df)` (lines 161-179): the display-to-real mapping
built over the column labels, and the list of its keys. -/
def detect_month_cols (df : Table) :
    List (String × String) × List String :=
  let m := df.cols.foldl detectStep []
  (m, m.map Prod.fst)

/-- The three classification outcomes for a column label. -/
inductive LabelClass where
  | dateForm
  | fyForm
  | categorical
deriving DecidableEq

/-- The branch taken by `detect_month_cols` on one label: date parsing
succeeds, or it fails and the upper-cased label starts with "FY", or
neither (the label is categorical and left out of the mapping). -/
def classifyLabel (col : String) : LabelClass :=
  match parseDate col with
  | some _ => LabelClass.dateForm
  | none =>
      if col.toUpper.startsWith "FY" then LabelClass.fyForm
      else LabelClass.categorical

/-! Normal form of the aggregation pipeline, used by the proofs. -/

/-- The rows that survive the two filters of `plot_sankey_d3` (value
coercion, positive-value filter, self-loop filter). -/
def surviving_rows (df : Table) (source_col target_col value_col : String) :
    List Row :=
  ((df.rows.map (coerceRow value_col)).filter
      (fun r => decide (0 < coerceNum (r value_col)))).filter
    (fun r => decide (r source_col ≠ r target_col))

/-- The node list built from the surviving rows (union of source and
target values, first occurrence kept). -/
def nodesOf (rows : List Row) (source_col target_col : String) : List Cell :=
  (rows.map (fun r => r source_col) ++ rows.map (fun r => r target_col)).dedup

/-- The link list built from the surviving rows. -/
def linksOf (rows : List Row) (source_col target_col value_col : String) :
    List SLink :=
  rows.map (fun r =>
    { source := (nodesOf rows source_col target_col).indexOf (r source_col)
      target := (nodesOf rows source_col target_col).indexOf (r target_col)
      value := coerceNum (r value_col) : SLink })

/-- The Diagram Dataset built from the surviving rows. -/
def dataOf (rows : List Row) (source_col target_col value_col : String) :
    SankeyData :=
  { nodes := (nodesOf rows source_col target_col).map (fun n =>
      { name := n
        value := round3 (node_values_of source_col target_col value_col rows n) })
    links := linksOf rows source_col target_col value_col }

/-- The pipeline of `plot_sankey_d3` written as a chain of its four guard
conditions around the dataset construction. -/
theorem plot_normal (df : Table) (source_col target_col value_col : String) :
    plot_sankey_d3 df source_col target_col value_col =
      if value_col ∉ df.cols then
        PlotResult.errorMsg ("Value column " ++ value_col ++ " not found in data.")
      else if source_col ∉ df.cols then PlotResult.raiseKeyError source_col
      else if target_col ∉ df.cols then PlotResult.raiseKeyError target_col
      else if (surviving_rows df source_col target_col value_col).isEmpty then
        PlotResult.warnEmpty
      else
        PlotResult.rendered
          (dataOf (surviving_rows df source_col target_col value_col)
            source_col target_col value_col) := rfl

/-! Concrete tables used in examples and witnesses. -/

/-- A row of a three-column test table. -/
def mkRow (a b v : Cell) : Row :=
  fun c => if c = "Source" then a else if c = "Target" then b else v

/-- The example table of the spec:
rows (A,B,100), (B,C,50), (A,A,30), (C,B,-5). -/
def tblExample : Table :=
  { cols := ["Source", "Target", "Val"]
    rows := [mkRow (Cell.str "A") (Cell.str "B") (Cell.num 100),
             mkRow (Cell.str "B") (Cell.str "C") (Cell.num 50),
             mkRow (Cell.str "A") (Cell.str "A") (Cell.num 30),
             mkRow (Cell.str "C") (Cell.str "B") (Cell.num (-5))] }

/-- The Diagram Dataset that `plot_sankey_d3` emits on `tblExample`:
edges (A,B,100) and (B,C,50) in row order, totals A=100, B=150, C=50. -/
def dataExample : SankeyData :=
  { nodes := [{ name := Cell.str "A", value := 100 },
              { name := Cell.str "B", value := 150 },
              { name := Cell.str "C", value := 50 }]
    links := [{ source := 0, target := 1, value := 100 },
              { source := 1, target := 2, value := 50 }] }

/-- The zero-row table with valid column identifiers. -/
def tblEmpty : Table :=
  { cols := ["Source", "Target", "Val"], rows := [] }

unseal Rat.add Rat.mul Rat.inv Rat.sub in
/-- Claim C3: on the spec's example rows
[(A,B,100), (B,C,50), (A,A,30), (C,B,-5)] with a numeric value column, the
aggregation emits exactly the edges (A,B,100) and (B,C,50) in row order
(the self-loop row and the negative row are dropped), with node totals
A=100, B=150 and C=50.  In `dataExample` node index 0 is A, 1 is B and
2 is C, so the two links are (A,B,100) and (B,C,50). -/
theorem claim_C3 :
    plot_sankey_d3 tblExample "Source" "Target" "Val" =
      PlotResult.rendered dataExample := by decide

/-- Whether a plot outcome is the handled user-facing error message. -/
def isErrorMsg : PlotResult → Bool
  | PlotResult.errorMsg _ => true
  | _ => false

/-- Counterexample to claim C5: calling `plot_sankey_d3` with a source
column that is not in the table does not produce the user-facing error
message; it escapes as an unhandled pandas KeyError from the column access
`df[df[source_col] != df[target_col]]`. -/
theorem claim_C5_cex :
    plot_sankey_d3 tblExample "Missing" "Target" "Val" =
        PlotResult.raiseKeyError "Missing" ∧
      isErrorMsg (plot_sankey_d3 tblExample "Missing" "Target" "Val") = false := by
  decide

/-- Claim C5 (amended): only the value column's existence is checked and
reported with a user-facing message; a missing source column or a missing
target column instead surfaces as an unhandled KeyError raised by the
column access in the self-loop filter. -/
theorem claim_C5 (df : Table) (source_col target_col value_col : String) :
    (value_col ∉ df.cols →
      plot_sankey_d3 df source_col target_col value_col =
        PlotResult.errorMsg
          ("Value column " ++ value_col ++ " not found in data.")) ∧
    (value_col ∈ df.cols → source_col ∉ df.cols →
      plot_sankey_d3 df source_col target_col value_col =
        PlotResult.raiseKeyError source_col) ∧
    (value_col ∈ df.cols → source_col ∈ df.cols → target_col ∉ df.cols →
      plot_sankey_d3 df source_col target_col value_col =
        PlotResult.raiseKeyError target_col) := by
  rw [plot_normal]
  refine ⟨fun h => ?_, fun hv hs => ?_, fun hv hs ht => ?_⟩ <;>
    simp [*]

/-- Witness for claim C5 at concrete inputs: a missing value column gives
the error message, a missing source or target column gives a KeyError. -/
theorem claim_C5_witness :
    plot_sankey_d3 tblExample "Source" "Target" "Nope" =
        PlotResult.errorMsg ("Value column " ++ "Nope" ++ " not found in data.") ∧
      plot_sankey_d3 tblExample "NoSrc" "Target" "Val" =
        PlotResult.raiseKeyError "NoSrc" ∧
      plot_sankey_d3 tblExample "Source" "NoTgt" "Val" =
        PlotResult.raiseKeyError "NoTgt" :=
  ⟨(claim_C5 tblExample "Source" "Target" "Nope").1 (by decide),
   (claim_C5 tblExample "NoSrc" "Target" "Val").2.1 (by decide) (by decide),
   (claim_C5 tblExample "Source" "NoTgt" "Val").2.2 (by decide) (by decide)
     (by decide)⟩

/-- Counterexample to claim C6: on the zero-row table with valid column
identifiers, `plot_sankey_d3` emits the "no data" warning and returns
early; it does not build the empty Diagram Dataset, so the renderer is
never handed a zero-edge dataset. -/
theorem claim_C6_cex :
    plot_sankey_d3 tblEmpty "Source" "Target" "Val" = PlotResult.warnEmpty ∧
      plot_sankey_d3 tblEmpty "Source" "Target" "Val" ≠
        PlotResult.rendered { nodes := [], links := [] } := by
  decide

/-- Claim C6 (amended): for every table whose rows all get filtered out
(including a zero-row table) with valid column identifiers, the
aggregation does not error: it emits a user-facing warning and returns
early, without constructing a Diagram Dataset or invoking the renderer. -/
theorem claim_C6 (df : Table) (source_col target_col value_col : String)
    (hv : value_col ∈ df.cols) (hs : source_col ∈ df.cols)
    (ht : target_col ∈ df.cols)
    (hemp : surviving_rows df source_col target_col value_col = []) :
    plot_sankey_d3 df source_col target_col value_col =
      PlotResult.warnEmpty := by
  rw [plot_normal]
  simp [hv, hs, ht, hemp]

/-- Witness for claim C6 at the zero-row table. -/
theorem claim_C6_witness :
    plot_sankey_d3 tblEmpty "Source" "Target" "Val" = PlotResult.warnEmpty :=
  claim_C6 tblEmpty "Source" "Target" "Val" (by decide) (by decide) (by decide)
    rfl

/-! Classifier lemmas. -/

/-- The dictionary key one label contributes to the display-to-real
mapping, when any: the strftime display form when date parsing succeeds,
the label itself in the FY case, nothing for a categorical label. -/
def displayKey (col : String) : Option String :=
  match parseDate col with
  | some dt => some (fmtMonYY dt)
  | none => if col.toUpper.startsWith "FY" then some col else none

theorem detectStep_eq (m : List (String × String)) (col : String) :
    detectStep m col =
      match displayKey col with
      | some k => dictInsert m k col
      | none => m := by
  unfold detectStep displayKey
  cases h : parseDate col
  · by_cases hfy : col.toUpper.startsWith "FY" <;> simp [hfy]
  · simp

theorem lookup_dictInsert (m : List (String × String)) (k v q : String) :
    List.lookup q (dictInsert m k v) =
      if q = k then some v else List.lookup q m := by
  induction m with
  | nil =>
      by_cases h : q = k
      · subst h
        simp [dictInsert]
      · have hb : (q == k) = false := beq_eq_false_iff_ne.mpr h
        simp [dictInsert, List.lookup_cons, hb, h]
  | cons p rest ih =>
      obtain ⟨k0, v0⟩ := p
      by_cases h0 : k0 = k
      · subst h0
        rw [show dictInsert ((k0, v0) :: rest) k0 v = (k0, v) :: rest from by
          simp [dictInsert]]
        by_cases h : q = k0
        · subst h
          simp
        · have hb : (q == k0) = false := beq_eq_false_iff_ne.mpr h
          simp [List.lookup_cons, hb, h]
      · rw [show dictInsert ((k0, v0) :: rest) k v = (k0, v0) :: dictInsert rest k v
          from by simp [dictInsert, h0]]
        by_cases h : q = k0
        · subst h
          have hqk : ¬ q = k := fun hh => h0 hh
          simp [List.lookup_cons, hqk]
        · have hb : (q == k0) = false := beq_eq_false_iff_ne.mpr h
          simp [List.lookup_cons, hb, ih]

theorem lookup_foldl_detectStep (cols : List String)
    (m : List (String × String)) (q : String) :
    List.lookup q (cols.foldl detectStep m) =
      (cols.reverse.find? (fun c => decide (displayKey c = some q))).or
        (List.lookup q m) := by
  induction cols generalizing m with
  | nil => simp
  | cons c rest ih =>
      rw [List.foldl_cons, ih, List.reverse_cons, List.find?_append]
      have hstep : List.lookup q (detectStep m c) =
          if displayKey c = some q then some c else List.lookup q m := by
        rw [detectStep_eq]
        cases hk : displayKey c with
        | none => simp
        | some k =>
            rw [lookup_dictInsert]
            by_cases h : q = k
            · subst h
              simp
            · have hne : ¬ (some k = some q) := fun hh =>
                h (Option.some.inj hh).symm
              simp [h, hne]
      rw [hstep]
      by_cases h : displayKey c = some q
      · simp [h, Option.or_assoc]
      · simp [h]

/-- Claim C7: when two distinct labels both parse as dates with the same
display form (and nothing later also maps to that display form), the
display-to-real mapping returned by the classifier records the later
label and not the earlier one: the later entry silently overwrites the
earlier one. -/
theorem claim_C7 (df : Table) (pre mid post : List String)
    (l1 l2 dsp : String) (d1 d2 : Date)
    (hcols : df.cols = pre ++ l1 :: (mid ++ l2 :: post))
    (hne : l1 ≠ l2)
    (h1 : parseDate l1 = some d1) (hf1 : fmtMonYY d1 = dsp)
    (h2 : parseDate l2 = some d2) (hf2 : fmtMonYY d2 = dsp)
    (hpost : ∀ c ∈ post, displayKey c ≠ some dsp) :
    List.lookup dsp (detect_month_cols df).1 = some l2 ∧
      List.lookup dsp (detect_month_cols df).1 ≠ some l1 := by
  have hk1 : displayKey l1 = some dsp := by simp [displayKey, h1, hf1]
  have hk2 : displayKey l2 = some dsp := by simp [displayKey, h2, hf2]
  have main : List.lookup dsp (detect_month_cols df).1 = some l2 := by
    unfold detect_month_cols
    rw [hcols, lookup_foldl_detectStep]
    have hrev : (pre ++ l1 :: (mid ++ l2 :: post)).reverse =
        post.reverse ++ l2 :: (mid.reverse ++ l1 :: pre.reverse) := by
      simp [List.reverse_append]
    rw [hrev, List.find?_append]
    have hnone : post.reverse.find?
        (fun c => decide (displayKey c = some dsp)) = none := by
      rw [List.find?_eq_none]
      intro x hx
      simp only [decide_eq_true_eq]
      exact hpost x (List.mem_reverse.mp hx)
    rw [hnone]
    rw [List.find?_cons_of_pos _ (by simp [hk2])]
    rfl
  refine ⟨main, ?_⟩
  rw [main]
  simp only [ne_eq, Option.some.injEq]
  exact fun h => hne h.symm

/-- Witness for claim C7: the labels 2025-04-01 and 2025-04-02 both
display as Apr-25, and the mapping records the later one. -/
theorem claim_C7_witness :
    List.lookup "Apr-25"
        (detect_month_cols { cols := ["2025-04-01", "2025-04-02"], rows := [] }).1 =
        some "2025-04-02" ∧
      List.lookup "Apr-25"
        (detect_month_cols { cols := ["2025-04-01", "2025-04-02"], rows := [] }).1 ≠
        some "2025-04-01" :=
  claim_C7 { cols := ["2025-04-01", "2025-04-02"], rows := [] }
    [] [] [] "2025-04-01" "2025-04-02" "Apr-25"
    { year := 2025, month := 4, day := 1 } { year := 2025, month := 4, day := 2 }
    rfl (by decide) (by decide) (by decide) (by decide) (by decide)
    (by intro c hc; cases hc)

theorem classify_partition (cols : List String) :
    (cols.filter (fun c => decide (classifyLabel c = LabelClass.dateForm))).length +
      (cols.filter (fun c => decide (classifyLabel c = LabelClass.fyForm))).length +
      (cols.filter (fun c => decide (classifyLabel c = LabelClass.categorical))).length
      = cols.length := by
  induction cols with
  | nil => simp
  | cons c rest ih =>
      cases hc : classifyLabel c <;>
        simp [List.filter_cons, hc, ih] <;> omega

/-- Claim C4: classification of column labels is a total, deterministic
function of the label text alone (tables with the same labels classify
identically whatever their rows hold), and it partitions every label list
into date-form, FY-form and categorical labels exactly — the three
classes are characterised by mutually exclusive, exhaustive conditions
and the filtered sub-lists account for every label exactly once. -/
theorem claim_C4 :
    (∀ df1 df2 : Table, df1.cols = df2.cols →
      detect_month_cols df1 = detect_month_cols df2) ∧
    (∀ cols : List String,
      (cols.filter (fun c => decide (classifyLabel c = LabelClass.dateForm))).length +
        (cols.filter (fun c => decide (classifyLabel c = LabelClass.fyForm))).length +
        (cols.filter (fun c => decide (classifyLabel c = LabelClass.categorical))).length
        = cols.length) ∧
    (∀ col : String,
      (classifyLabel col = LabelClass.dateForm ↔ (parseDate col).isSome) ∧
      (classifyLabel col = LabelClass.fyForm ↔
        (parseDate col = none ∧ col.toUpper.startsWith "FY")) ∧
      (classifyLabel col = LabelClass.categorical ↔
        (parseDate col = none ∧ ¬ col.toUpper.startsWith "FY"))) := by
  refine ⟨?_, classify_partition, ?_⟩
  · intro df1 df2 h
    unfold detect_month_cols
    rw [h]
  · intro col
    unfold classifyLabel
    cases h : parseDate col
    · by_cases hfy : col.toUpper.startsWith "FY" <;> simp [hfy]
    · simp

/-- Witness for claim C4: two tables with the same labels but different
rows classify identically, at concrete inputs. -/
theorem claim_C4_witness :
    detect_month_cols tblExample = detect_month_cols tblEmpty :=
  claim_C4.1 tblExample tblEmpty rfl

theorem detectStep_categorical (m : List (String × String)) (c : String)
    (h : classifyLabel c = LabelClass.categorical) : detectStep m c = m := by
  unfold classifyLabel at h
  unfold detectStep
  cases hp : parseDate c
  · rw [hp] at h
    by_cases hfy : c.toUpper.startsWith "FY"
    · simp [hfy] at h
    · simp [hfy]
  · simp [hp] at h

theorem foldl_detectStep_filter (cols : List String)
    (m : List (String × String)) :
    (cols.filter
        (fun c => decide (classifyLabel c ≠ LabelClass.categorical))).foldl
      detectStep m = cols.foldl detectStep m := by
  induction cols generalizing m with
  | nil => rfl
  | cons c rest ih =>
      by_cases hc : classifyLabel c = LabelClass.categorical
      · have hf : (c :: rest).filter
            (fun c => decide (classifyLabel c ≠ LabelClass.categorical)) =
            rest.filter (fun c => decide (classifyLabel c ≠ LabelClass.categorical)) := by
          simp [List.filter_cons, hc]
        rw [hf, ih m, List.foldl_cons, detectStep_categorical m c hc]
      · have hf : (c :: rest).filter
            (fun c => decide (classifyLabel c ≠ LabelClass.categorical)) =
            c :: rest.filter (fun c => decide (classifyLabel c ≠ LabelClass.categorical)) := by
          simp [List.filter_cons, hc]
        rw [hf, List.foldl_cons, List.foldl_cons, ih (detectStep m c)]

/-- Claim C8: the classifier is a total function that never raises:
a label whose date parsing fails falls through to the case-insensitive
FY-prefix check and otherwise to the categorical branch; categorical
labels contribute nothing, so the classifier's output is unchanged when
they are removed. -/
theorem claim_C8 :
    (∀ (m : List (String × String)) (col : String), parseDate col = none →
      detectStep m col =
        if col.toUpper.startsWith "FY" then dictInsert m col col else m) ∧
    (∀ df : Table,
      detect_month_cols df =
        detect_month_cols
          { cols := df.cols.filter
              (fun c => decide (classifyLabel c ≠ LabelClass.categorical))
            rows := df.rows }) := by
  constructor
  · intro m col h
    unfold detectStep
    rw [h]
  · intro df
    unfold detect_month_cols
    rw [foldl_detectStep_filter]

/-- Witness for claim C8: the categorical label Plant falls through both
branches and leaves the mapping unchanged. -/
theorem claim_C8_witness :
    detectStep [] "Plant" =
      (if String.startsWith (String.toUpper "Plant") "FY"
        then dictInsert [] "Plant" "Plant" else []) :=
  claim_C8.1 [] "Plant" (by decide)

/-! Aggregation lemmas. -/

/-- Claim C1: a row whose coerced value is not positive, or whose source
cell equals its target cell at comparison time (after the in-place
numeric coercion of the value column), is excluded by the aggregation:
removing such a row from the table changes nothing — neither the edge
list nor any node total, nor any other observable outcome of the call. -/
theorem claim_C1 (cols : List String) (pre post : List Row)
    (source_col target_col value_col : String) (r : Row)
    (h : coerceNum (r value_col) ≤ 0 ∨
      coerceRow value_col r source_col = coerceRow value_col r target_col) :
    plot_sankey_d3 { cols := cols, rows := pre ++ r :: post }
        source_col target_col value_col =
      plot_sankey_d3 { cols := cols, rows := pre ++ post }
        source_col target_col value_col := by
  rw [plot_normal, plot_normal]
  have hsurv : surviving_rows { cols := cols, rows := pre ++ r :: post }
      source_col target_col value_col =
      surviving_rows { cols := cols, rows := pre ++ post }
      source_col target_col value_col := by
    unfold surviving_rows
    simp only [List.map_append, List.map_cons, List.filter_append,
      List.filter_cons]
    rcases h with h | h
    · have hp1 : decide
          (0 < coerceNum ((coerceRow value_col r) value_col)) = false := by
        have hv : coerceNum ((coerceRow value_col r) value_col) =
            coerceNum (r value_col) := by
          simp [coerceRow, coerceNum]
        rw [hv]
        exact decide_eq_false (not_lt.mpr h)
      simp [hp1]
    · have hp2 : decide
          ((coerceRow value_col r) source_col ≠
            (coerceRow value_col r) target_col) = false := by
        simp [h]
      cases hp1 : decide
          (0 < coerceNum ((coerceRow value_col r) value_col)) <;>
        simp [hp1, List.filter_cons, hp2, h]
  rw [hsurv]

/-- A two-row table whose second row is the self-loop (A,A,30). -/
def tblWithLoop : Table :=
  { cols := ["Source", "Target", "Val"]
    rows := [mkRow (Cell.str "A") (Cell.str "B") (Cell.num 100),
             mkRow (Cell.str "A") (Cell.str "A") (Cell.num 30)] }

/-- The same table without the self-loop row. -/
def tblNoLoop : Table :=
  { cols := ["Source", "Target", "Val"]
    rows := [mkRow (Cell.str "A") (Cell.str "B") (Cell.num 100)] }

/-- Witness for claim C1: dropping the self-loop row (A,A,30) from a
two-row table leaves the plot outcome unchanged. -/
theorem claim_C1_witness :
    plot_sankey_d3 tblWithLoop "Source" "Target" "Val" =
      plot_sankey_d3 tblNoLoop "Source" "Target" "Val" :=
  claim_C1 ["Source", "Target", "Val"]
    [mkRow (Cell.str "A") (Cell.str "B") (Cell.num 100)] []
    "Source" "Target" "Val"
    (mkRow (Cell.str "A") (Cell.str "A") (Cell.num 30))
    (Or.inr (by decide))

/-- The node-total dictionary after the loop, as a closed sum: the total
of cell c is the sum over the rows of the row's coerced value counted once
when the source is c and once when the target is c. -/
theorem node_values_eq_sum (source_col target_col value_col : String)
    (rows : List Row) (c : Cell) :
    node_values_of source_col target_col value_col rows c =
      (rows.map (fun r =>
        (if r source_col = c then coerceNum (r value_col) else 0) +
        (if r target_col = c then coerceNum (r value_col) else 0))).sum := by
  suffices h : ∀ m : Cell → ℚ,
      (rows.foldl (node_values_step source_col target_col value_col) m) c =
        m c + (rows.map (fun r =>
          (if r source_col = c then coerceNum (r value_col) else 0) +
          (if r target_col = c then coerceNum (r value_col) else 0))).sum by
    simpa [node_values_of] using h (fun _ => 0)
  induction rows with
  | nil => intro m; simp
  | cons r rest ih =>
      intro m
      rw [List.foldl_cons, ih, List.map_cons, List.sum_cons]
      have hstep : node_values_step source_col target_col value_col m r c =
          m c + ((if r source_col = c then coerceNum (r value_col) else 0) +
            (if r target_col = c then coerceNum (r value_col) else 0)) := by
        unfold node_values_step dictAdd
        by_cases h1 : c = r source_col
        · subst h1
          by_cases h2 : r source_col = r target_col
          · simp [h2]
            ring
          · simp [h2, Ne.symm h2]
        · by_cases h2 : c = r target_col
          · subst h2
            simp [h1, Ne.symm h1]
          · simp [h1, h2, Ne.symm h1, Ne.symm h2]
      rw [hstep]
      ring

/-- The sum of the values of the links incident to node index i, counted
once per side: this is what the spec calls the node's total flow. -/
def incidentSum (links : List SLink) (i : ℕ) : ℚ :=
  (links.map (fun l =>
    (if l.source = i then l.value else 0) +
    (if l.target = i then l.value else 0))).sum

/-- Claim C2: in every rendered Diagram Dataset, the value stored on the
node at index i is the round-to-3-decimals of the sum of the
full-precision values of the links in which index i appears as source or
as target, counted once per side with no special-casing.  (The link
values are the full-precision coerced row values; only the node totals
are rounded.) -/
theorem claim_C2 (df : Table) (source_col target_col value_col : String)
    (d : SankeyData)
    (h : plot_sankey_d3 df source_col target_col value_col =
      PlotResult.rendered d)
    (i : ℕ) (nd : SNode) (hnd : d.nodes[i]? = some nd) :
    nd.value = round3 (incidentSum d.links i) := by
  rw [plot_normal] at h
  split_ifs at h
  injection h with hd
  subst hd
  set S := surviving_rows df source_col target_col value_col
  set nodes := nodesOf S source_col target_col with hnodes
  have hnodup : nodes.Nodup := List.nodup_dedup _
  simp only [dataOf, List.getElem?_map] at hnd
  cases hn : nodes[i]? with
  | none => rw [hn] at hnd; cases hnd
  | some n =>
      rw [hn] at hnd
      injection hnd with hnd
      subst hnd
      show round3 (node_values_of source_col target_col value_col S n) =
        round3 (incidentSum (dataOf S source_col target_col value_col).links i)
      congr 1
      obtain ⟨hilt, hni⟩ := List.getElem?_eq_some_iff.mp hn
      have hn_mem : n ∈ nodes := hni ▸ List.getElem_mem hilt
      have hn_idx : nodes.indexOf n = i := by
        rw [← hni]
        exact List.indexOf_getElem hnodup i hilt
      rw [node_values_eq_sum]
      unfold incidentSum
      simp only [dataOf, linksOf, List.map_map]
      apply congrArg List.sum
      apply List.map_congr_left
      intro r hr
      simp only [Function.comp]
      have hmem_s : r source_col ∈ nodes := by
        rw [hnodes]
        unfold nodesOf
        rw [List.mem_dedup]
        exact List.mem_append_left _ (List.mem_map_of_mem _ hr)
      have hmem_t : r target_col ∈ nodes := by
        rw [hnodes]
        unfold nodesOf
        rw [List.mem_dedup]
        exact List.mem_append_right _ (List.mem_map_of_mem _ hr)
      have hidx : ∀ x : Cell, x ∈ nodes →
          ((x = n) ↔ (nodes.indexOf x = i)) := by
        intro x hx
        constructor
        · intro hxn
          subst hxn
          exact hn_idx
        · intro hxi
          have heq : nodes.indexOf x = nodes.indexOf n := by
            rw [hxi, hn_idx]
          exact (List.indexOf_inj hx hn_mem).mp heq
      rw [if_congr (hidx _ hmem_s) rfl rfl, if_congr (hidx _ hmem_t) rfl rfl]

/-- A one-row table whose value 1.2345 needs more than 3 decimals. -/
def tblPrec : Table :=
  { cols := ["Source", "Target", "Val"]
    rows := [mkRow (Cell.str "A") (Cell.str "B") (Cell.num (12345 / 10000))] }

/-- The dataset emitted on `tblPrec`: the link keeps the full-precision
value 1.2345 while the node totals are rounded to 1.235. -/
def dataPrec : SankeyData :=
  { nodes := [{ name := Cell.str "A", value := 247 / 200 },
              { name := Cell.str "B", value := 247 / 200 }]
    links := [{ source := 0, target := 1, value := 12345 / 10000 }] }

unseal Rat.add Rat.mul Rat.inv Rat.sub in
/-- Witness for claim C2 on `tblPrec`: the node total at index 0 is the
rounding of the full-precision incident link sum. -/
theorem claim_C2_witness :
    (SNode.mk (Cell.str "A") (247 / 200)).value =
      round3 (incidentSum dataPrec.links 0) :=
  claim_C2 tblPrec "Source" "Target" "Val" dataPrec (by decide) 0
    (SNode.mk (Cell.str "A") (247 / 200)) (by decide)

/-- Claim C10: in every rendered Diagram Dataset, each link's source and
target are indices into the node list, no link has equal source and
target index, and every node is incident to at least one link. -/
theorem claim_C10 (df : Table) (source_col target_col value_col : String)
    (d : SankeyData)
    (h : plot_sankey_d3 df source_col target_col value_col =
      PlotResult.rendered d) :
    (∀ l ∈ d.links, l.source < d.nodes.length ∧ l.target < d.nodes.length ∧
      l.source ≠ l.target) ∧
    (∀ i < d.nodes.length, ∃ l ∈ d.links, l.source = i ∨ l.target = i) := by
  rw [plot_normal] at h
  split_ifs at h
  injection h with hd
  subst hd
  set S := surviving_rows df source_col target_col value_col with hS
  set nodes := nodesOf S source_col target_col with hnodes
  have hnodup : nodes.Nodup := List.nodup_dedup _
  have hmem_of_row : ∀ r ∈ S, r source_col ∈ nodes ∧ r target_col ∈ nodes := by
    intro r hr
    constructor
    · rw [hnodes]
      unfold nodesOf
      rw [List.mem_dedup]
      exact List.mem_append_left _ (List.mem_map_of_mem _ hr)
    · rw [hnodes]
      unfold nodesOf
      rw [List.mem_dedup]
      exact List.mem_append_right _ (List.mem_map_of_mem _ hr)
  have hlen : (dataOf S source_col target_col value_col).nodes.length =
      nodes.length := by
    simp [dataOf]
  constructor
  · intro l hl
    simp only [dataOf, linksOf, List.mem_map] at hl
    obtain ⟨r, hr, rfl⟩ := hl
    obtain ⟨hms, hmt⟩ := hmem_of_row r hr
    have hne_st : r source_col ≠ r target_col := by
      have := (List.mem_filter.mp hr).2
      simpa using this
    refine ⟨?_, ?_, ?_⟩
    · rw [hlen]
      exact List.indexOf_lt_length.mpr hms
    · rw [hlen]
      exact List.indexOf_lt_length.mpr hmt
    · intro hidx
      exact hne_st ((List.indexOf_inj hms hmt).mp hidx)
  · intro i hi
    rw [hlen] at hi
    have hni : nodes[i] ∈ nodes := List.getElem_mem hi
    have hsrc : nodes[i] ∈ S.map (fun r => r source_col) ∨
        nodes[i] ∈ S.map (fun r => r target_col) := by
      have hmem : nodes[i] ∈ S.map (fun r => r source_col) ++
          S.map (fun r => r target_col) := List.mem_dedup.mp hni
      exact List.mem_append.mp hmem
    rcases hsrc with hcase | hcase
    · obtain ⟨r, hr, hrs⟩ := List.mem_map.mp hcase
      refine ⟨{ source := nodes.indexOf (r source_col)
                target := nodes.indexOf (r target_col)
                value := coerceNum (r value_col) }, ?_, ?_⟩
      · simp only [dataOf, linksOf, List.mem_map]
        exact ⟨r, hr, rfl⟩
      · left
        rw [hrs]
        exact List.indexOf_getElem hnodup i hi
    · obtain ⟨r, hr, hrs⟩ := List.mem_map.mp hcase
      refine ⟨{ source := nodes.indexOf (r source_col)
                target := nodes.indexOf (r target_col)
                value := coerceNum (r value_col) }, ?_, ?_⟩
      · simp only [dataOf, linksOf, List.mem_map]
        exact ⟨r, hr, rfl⟩
      · right
        rw [hrs]
        exact List.indexOf_getElem hnodup i hi

unseal Rat.add Rat.mul Rat.inv Rat.sub in
/-- Witness for claim C10 on the rendered dataset of the spec's example
table. -/
theorem claim_C10_witness :
    (∀ l ∈ dataExample.links,
      l.source < dataExample.nodes.length ∧
      l.target < dataExample.nodes.length ∧ l.source ≠ l.target) ∧
    (∀ i < dataExample.nodes.length,
      ∃ l ∈ dataExample.links, l.source = i ∨ l.target = i) :=
  claim_C10 tblExample "Source" "Target" "Val" dataExample (by decide)

/-- Filtering by a predicate that factors through f preserves equality of
the f-images of two lists. -/
theorem map_filter_congr {α β : Type} (f : α → β) (q : β → Bool)
    (R1 R2 : List α) (h : R1.map f = R2.map f) :
    (R1.filter (fun a => q (f a))).map f =
      (R2.filter (fun a => q (f a))).map f := by
  induction R1 generalizing R2 with
  | nil =>
      cases R2 with
      | nil => rfl
      | cons b rest2 => simp at h
  | cons a rest ih =>
      cases R2 with
      | nil => simp at h
      | cons b rest2 =>
          simp only [List.map_cons, List.cons.injEq] at h
          obtain ⟨hab, hrest⟩ := h
          rw [List.filter_cons, List.filter_cons, hab]
          cases hq : q (f b) <;> simp [hq, hab, ih rest2 hrest]

/-- Claim C9: the aggregation is a deterministic function of its inputs —
in fact of nothing more than the column-label list and, for each row, the
three cells in the chosen source, target and value columns.  Two tables
agreeing on those (in particular, the same table twice) produce identical
plot outcomes: identical node totals and identical edge lists. -/
theorem claim_C9 (df1 df2 : Table) (source_col target_col value_col : String)
    (hcols : df1.cols = df2.cols)
    (hrows : df1.rows.map
        (fun r => (r source_col, r target_col, r value_col)) =
      df2.rows.map (fun r => (r source_col, r target_col, r value_col))) :
    plot_sankey_d3 df1 source_col target_col value_col =
      plot_sankey_d3 df2 source_col target_col value_col := by
  have h1 : (df1.rows.map (coerceRow value_col)).map
      (fun r => (r source_col, r target_col, r value_col)) =
      (df2.rows.map (coerceRow value_col)).map
      (fun r => (r source_col, r target_col, r value_col)) := by
    rw [List.map_map, List.map_map]
    have hcomp : ((fun r : Row => (r source_col, r target_col, r value_col)) ∘
        coerceRow value_col) =
        ((fun x : Cell × Cell × Cell =>
          ((if source_col = value_col then Cell.num (coerceNum x.2.2) else x.1),
           (if target_col = value_col then Cell.num (coerceNum x.2.2) else x.2.1),
           (if value_col = value_col then Cell.num (coerceNum x.2.2) else x.2.2))) ∘
        (fun r : Row => (r source_col, r target_col, r value_col))) := rfl
    rw [hcomp, ← List.map_map, ← List.map_map, hrows]
  have h2 : (surviving_rows df1 source_col target_col value_col).map
      (fun r => (r source_col, r target_col, r value_col)) =
      (surviving_rows df2 source_col target_col value_col).map
      (fun r => (r source_col, r target_col, r value_col)) := by
    unfold surviving_rows
    exact map_filter_congr _ (fun x : Cell × Cell × Cell => decide (x.1 ≠ x.2.1))
      _ _ (map_filter_congr _
        (fun x : Cell × Cell × Cell => decide (0 < coerceNum x.2.2)) _ _ h1)
  have hlen : (surviving_rows df1 source_col target_col value_col).length =
      (surviving_rows df2 source_col target_col value_col).length := by
    have := congrArg List.length h2
    simpa using this
  have hemp : (surviving_rows df1 source_col target_col value_col).isEmpty =
      (surviving_rows df2 source_col target_col value_col).isEmpty := by
    have hgen : ∀ (l1 l2 : List Row), l1.length = l2.length →
        l1.isEmpty = l2.isEmpty := by
      intro l1 l2 hl
      cases l1 <;> cases l2 <;> simp_all
    exact hgen _ _ hlen
  have hnodes : nodesOf (surviving_rows df1 source_col target_col value_col)
      source_col target_col =
      nodesOf (surviving_rows df2 source_col target_col value_col)
      source_col target_col := by
    unfold nodesOf
    have hs : (surviving_rows df1 source_col target_col value_col).map
        (fun r => r source_col) =
        (surviving_rows df2 source_col target_col value_col).map
        (fun r => r source_col) := by
      have := congrArg (List.map (fun x : Cell × Cell × Cell => x.1)) h2
      rw [List.map_map, List.map_map] at this
      exact this
    have ht2 : (surviving_rows df1 source_col target_col value_col).map
        (fun r => r target_col) =
        (surviving_rows df2 source_col target_col value_col).map
        (fun r => r target_col) := by
      have := congrArg (List.map (fun x : Cell × Cell × Cell => x.2.1)) h2
      rw [List.map_map, List.map_map] at this
      exact this
    rw [hs, ht2]
  have hnv : node_values_of source_col target_col value_col
      (surviving_rows df1 source_col target_col value_col) =
      node_values_of source_col target_col value_col
      (surviving_rows df2 source_col target_col value_col) := by
    funext c
    rw [node_values_eq_sum, node_values_eq_sum]
    apply congrArg List.sum
    have := congrArg (List.map (fun x : Cell × Cell × Cell =>
      (if x.1 = c then coerceNum x.2.2 else 0) +
      (if x.2.1 = c then coerceNum x.2.2 else 0))) h2
    rw [List.map_map, List.map_map] at this
    exact this
  have hlinks : linksOf (surviving_rows df1 source_col target_col value_col)
      source_col target_col value_col =
      linksOf (surviving_rows df2 source_col target_col value_col)
      source_col target_col value_col := by
    unfold linksOf
    rw [hnodes]
    have := congrArg (List.map (fun x : Cell × Cell × Cell =>
      { source := (nodesOf (surviving_rows df2 source_col target_col value_col)
          source_col target_col).indexOf x.1
        target := (nodesOf (surviving_rows df2 source_col target_col value_col)
          source_col target_col).indexOf x.2.1
        value := coerceNum x.2.2 : SLink })) h2
    rw [List.map_map, List.map_map] at this
    exact this
  have hdata : dataOf (surviving_rows df1 source_col target_col value_col)
      source_col target_col value_col =
      dataOf (surviving_rows df2 source_col target_col value_col)
      source_col target_col value_col := by
    unfold dataOf
    rw [hnodes, hnv, hlinks]
  rw [plot_normal, plot_normal, hcols, hemp, hdata]

/-- A row of a four-column test table carrying a junk cell outside the
three selected columns. -/
def mkRowJunk (a b v : Cell) : Row :=
  fun c => if c = "Source" then a else if c = "Target" then b
    else if c = "Val" then v else Cell.str "junk"

/-- A table like `tblExample` but with different cells outside the
selected columns. -/
def tblExampleJunk : Table :=
  { cols := ["Source", "Target", "Val"]
    rows := [mkRowJunk (Cell.str "A") (Cell.str "B") (Cell.num 100),
             mkRowJunk (Cell.str "B") (Cell.str "C") (Cell.num 50),
             mkRowJunk (Cell.str "A") (Cell.str "A") (Cell.num 30),
             mkRowJunk (Cell.str "C") (Cell.str "B") (Cell.num (-5))] }

/-- Witness for claim C9: the example table and its junk-padded variant
agree on the selected columns, so the plot outcomes coincide. -/
theorem claim_C9_witness :
    plot_sankey_d3 tblExample "Source" "Target" "Val" =
      plot_sankey_d3 tblExampleJunk "Source" "Target" "Val" :=
  claim_C9 tblExample tblExampleJunk "Source" "Target" "Val" rfl (by decide)

end Sankey
